import Mathlib

/-!
Verification of the `ptrace` package (a Go wrapper around the ptrace system
call) against its natural-language specification.

The development shallowly embeds the package's observable behaviour:

* `GoError` models the `error` values the package can return: `nil`, the
  package-level sentinel `TraceeExited`, the ad-hoc `errors.New("unreachable.")`
  value produced by `ReadWord`/`WriteWord`/`GetIPtr` when the command channel is
  nil, and kernel errno values.
* Each public command (`SingleStep`, `Continue`, `Detach`, `SendSignal`,
  `ReadWord`, `WriteWord`, `GetIPtr`) follows the source pattern: it calls
  `do` with a closure; `do` sends the closure on `t.cmds` iff `t.cmds != nil`.
  We embed a command as a function of the flag `cmdsNotNil` (whether `t.cmds`
  is non-nil) and of the result the kernel call would deliver; the second
  component of the returned pair records whether the kernel call was attempted
  (i.e. whether the closure was submitted to the command executor).
* `peek`/`poke` embed the word transfer helpers, including their exact
  treatment of short transfers; `leBytes`/`leRead` embed the little-endian
  `binary.Write`/`binary.Read` byte (de)serialization of a `uint64`;
  `peekData`/`pokeData` embed `PtracePeekData`/`PtracePokeData` acting on an
  abstract byte-addressed memory.
* `waitRun` embeds the `wait` goroutine: it folds a list of outcomes of
  successive `t.proc.Wait()` calls into the goroutine's observable effects
  (events sent, whether `t.events` was closed, the value pushed on `t.err`,
  whether `t.err` or `t.cmds` were closed by the goroutine).  `waitRun`
  returns `none` when the list ends before a terminal outcome, i.e. the
  goroutine is still blocked in `Wait()`.
* `CloseT` embeds the `Close` method on the channel-state record `Chans`;
  it returns `none` when the Go code would panic (closing an already-closed
  or nil channel).
* `recvErr` embeds a receive from the `t.err` channel, as performed by
  `Error()`: `none` means the receive blocks.
* `Exec` / `Attach` embed the constructor functions' return value shape.
-/

namespace Ptrace

/-- Models a Go `error` value as returned by this package:
`nil` is the nil error, `traceeExited` the `TraceeExited` sentinel,
`unreachable` the `errors.New("unreachable.")` value, and `kernel errno`
an error coming back from a tracing syscall. -/
inductive GoError
  | nil
  | traceeExited
  | unreachable
  | kernel (errno : Nat)
deriving DecidableEq

/-- Embeds `func (t *Tracee) do(f func()) bool`: the closure is submitted to
the command executor iff `t.cmds != nil`. -/
def doCmd (cmdsNotNil : Bool) : Bool := cmdsNotNil

/-- Embeds `SingleStep`: submit `PtraceSingleStep` via `do`; if submission
fails return `TraceeExited`.  `k` is the kernel call's result; the Bool in
the output records whether the kernel call was attempted. -/
def SingleStep (cmdsNotNil : Bool) (k : GoError) : GoError × Bool :=
  if doCmd cmdsNotNil then (k, true) else (GoError.traceeExited, false)

/-- Embeds `Continue`: submit `PtraceCont` via `do`; if submission fails
return `TraceeExited`. -/
def Continue (cmdsNotNil : Bool) (k : GoError) : GoError × Bool :=
  if doCmd cmdsNotNil then (k, true) else (GoError.traceeExited, false)

/-- Embeds `Detach`: submit `PtraceDetach` via `do`; if submission fails
return `TraceeExited`. -/
def Detach (cmdsNotNil : Bool) (k : GoError) : GoError × Bool :=
  if doCmd cmdsNotNil then (k, true) else (GoError.traceeExited, false)

/-- Embeds `SendSignal`: submit `syscall.Kill` via `do`; if submission fails
the method returns `nil` (source line 139: `return nil`), not
`TraceeExited`. -/
def SendSignal (cmdsNotNil : Bool) (k : GoError) : GoError × Bool :=
  if doCmd cmdsNotNil then (k, true) else (GoError.nil, false)

/-- Little-endian serialization of `n` bytes of `w`, least significant byte
first: embeds `binary.Write(buf, binary.LittleEndian, word)` for `uint64`
when `n = 8`. -/
def leBytes : Nat → Nat → List Nat
  | 0, _ => []
  | n + 1, w => w % 256 :: leBytes n (w / 256)

/-- Little-endian deserialization of a byte list: embeds
`binary.Read(bytes.NewReader(word), binary.LittleEndian, &v)` for `uint64`
on an 8-byte buffer. -/
def leRead : List Nat → Nat
  | [] => 0
  | b :: bs => b + 256 * leRead bs

/-- Embeds `peek(pid, address)` (source lines 143-152) given the outcome of
the `PtracePeekData` kernel call: `nbytes` bytes were transferred, `kerr` is
the kernel error, `word` is the byte buffer filled by the kernel.  Faithful
to the source: `if err != nil || nbytes != 8 { return 0, err }` — note that
on a short transfer with a nil kernel error this returns `(0, nil)`.
On the success path `binary.Read` on the 8-byte buffer overwrites the
`0x2Bc0ffee` seed and cannot fail. -/
def peek (nbytes : Nat) (kerr : GoError) (word : List Nat) : Nat × GoError :=
  if kerr ≠ GoError.nil ∨ nbytes ≠ 8 then (0, kerr)
  else (leRead word, GoError.nil)

/-- Embeds `poke(pid, address, word)` (source lines 169-180) given the
outcome of the `PtracePokeData` kernel call.  `binary.Write` of a `uint64`
into a fresh `bytes.Buffer` cannot fail, so the early return at line 173 is
dead; faithful to `if err != nil || nbytes != 8 { return err }` — on a short
transfer with a nil kernel error this returns `nil`. -/
def poke (nbytes : Nat) (kerr : GoError) : GoError :=
  if kerr ≠ GoError.nil ∨ nbytes ≠ 8 then kerr
  else GoError.nil

/-- Embeds `ReadWord`: submit a closure running `peek` via `do`; if
submission fails return `(0, errors.New("unreachable."))` (source line 165).
`v`/`k` are the components of the `peek` result the closure would deliver. -/
def ReadWord (cmdsNotNil : Bool) (v : Nat) (k : GoError) :
    (Nat × GoError) × Bool :=
  if doCmd cmdsNotNil then ((v, k), true)
  else ((0, GoError.unreachable), false)

/-- Embeds `WriteWord`: submit a closure running `poke` via `do`; if
submission fails return `errors.New("unreachable.")` (source line 188). -/
def WriteWord (cmdsNotNil : Bool) (k : GoError) : GoError × Bool :=
  if doCmd cmdsNotNil then (k, true) else (GoError.unreachable, false)

/-- Embeds `GetIPtr`: submit a closure running `PtraceGetRegs` via `do`; if
submission fails return `(0, errors.New("unreachable."))` (source line 203).
`rip` is the instruction pointer the kernel call would report. -/
def GetIPtr (cmdsNotNil : Bool) (rip : Nat) (k : GoError) :
    (Nat × GoError) × Bool :=
  if doCmd cmdsNotNil then ((rip, k), true)
  else ((0, GoError.unreachable), false)

/-- A byte-addressed memory: the tracee's address space as seen through
`PtracePeekData`/`PtracePokeData`. -/
def Memory : Type := Nat → Nat

/-- Embeds a successful `PtracePokeData(pid, addr, buf)`: the bytes of `buf`
overwrite memory at addresses `addr ..< addr + buf.length`. -/
def pokeData (m : Memory) (addr : Nat) (buf : List Nat) : Memory :=
  fun x => if addr ≤ x ∧ x < addr + buf.length then buf.getD (x - addr) 0 else m x

/-- Embeds a successful `PtracePeekData(pid, addr, word)` with an `n`-byte
buffer: reads the `n` bytes of memory starting at `addr`. -/
def peekData (m : Memory) (addr n : Nat) : List Nat :=
  (List.range n).map fun i => m (addr + i)

/-- The full `WriteWord` data path on memory when the kernel transfer
succeeds in full: serialize the word little-endian (`binary.Write`) and
store the 8 bytes at `addr` (`PtracePokeData`). -/
def writeWordMem (m : Memory) (addr w : Nat) : Memory :=
  pokeData m addr (leBytes 8 w)

/-- The full `ReadWord` data path on memory when the kernel transfer
succeeds in full: read 8 bytes at `addr` (`PtracePeekData`, `nbytes = 8`,
nil error) and deserialize them through `peek`. -/
def readWordMem (m : Memory) (addr : Nat) : Nat × GoError :=
  peek 8 GoError.nil (peekData m addr 8)

/-- Outcome of one `t.proc.Wait()` call inside the `wait` goroutine:
the call failed with an error, or reported the tracee exited with the given
wait status, or reported a (signal-delivered) stop with the given status. -/
inductive WaitOutcome
  | fails (e : Nat)
  | exited (status : Nat)
  | stopped (status : Nat)
deriving DecidableEq

/-- Observable effects of a run of the `wait` goroutine:
the wait statuses sent on `t.events` in order, whether the goroutine closed
`t.events`, the error it pushed on `t.err` (if any), whether it closed
`t.err`, and whether it closed `t.cmds`. -/
structure WaitResult where
  events : List Nat
  eventsClosed : Bool
  errSent : Option Nat
  errChanClosed : Bool
  cmdsClosed : Bool
deriving DecidableEq

/-- Embeds `func (t *Tracee) wait()` (source lines 222-237) as a fold over
the successive outcomes of `t.proc.Wait()`.  A failing wait pushes the error
on `t.err`, closes `t.events` and returns; an exited status is sent on
`t.events`, then `t.events` is closed and the goroutine returns; a stop
status is sent on `t.events` and the loop continues.  The goroutine never
touches `t.cmds` and never closes `t.err`.  `none` means the outcome list
ended with the goroutine still blocked in `Wait()`. -/
def waitRun : List WaitOutcome → Option WaitResult
  | [] => Option.none
  | WaitOutcome.fails e :: _ => some ⟨[], true, some e, false, false⟩
  | WaitOutcome.exited s :: _ => some ⟨[s], true, Option.none, false, false⟩
  | WaitOutcome.stopped s :: rest =>
      (waitRun rest).map fun r => { r with events := s :: r.events }

/-- The channel state of a `Tracee` relevant to `Close` and the
close-vs-send discipline: whether `t.err` has been closed, whether `t.cmds`
has been closed, whether `t.cmds` is nil, and whether the wait goroutine has
observed termination (returned). -/
structure Chans where
  errClosed : Bool
  cmdsClosed : Bool
  cmdsNil : Bool
  waitDone : Bool
deriving DecidableEq

/-- Embeds `func (t *Tracee) Close()` (source lines 216-220):
`close(t.err); close(t.cmds); t.cmds = nil`.  In Go, closing an
already-closed channel or a nil channel panics; `none` models the panic.
`Close` is a public method invoked by the caller — nothing guards it on the
wait goroutine having observed termination. -/
def CloseT (c : Chans) : Option Chans :=
  if c.errClosed then Option.none
  else if c.cmdsClosed ∨ c.cmdsNil then Option.none
  else some { c with errClosed := true, cmdsClosed := true, cmdsNil := true }

/-- Embeds the receive `<-t.err` performed by `Error()` (source line 40).
`buf` is the value buffered in the channel (capacity 1), `closed` whether
the channel has been closed.  Result `some (some e)` delivers a buffered
error, `some none` is the nil value received from a closed empty channel,
and `none` means the receive blocks. -/
def recvErr (buf : Option Nat) (closed : Bool) : Option (Option Nat) :=
  match buf with
  | some e => some (some e)
  | Option.none => if closed then some Option.none else Option.none

/-- Outcome of the `os.StartProcess` call inside `Exec`. -/
inductive StartOutcome
  | ok (pid : Nat)
  | fail (errno : Nat)
deriving DecidableEq

/-- Shape of the value returned by `Exec`/`Attach`:
whether a non-nil `*Tracee` handle is returned, whether its `proc` field is
set to a non-nil process, and the error returned alongside it. -/
structure ExecRet where
  handleReturned : Bool
  procSet : Bool
  err : GoError
deriving DecidableEq

/-- Embeds `Exec` (source lines 45-73): the `Tracee` value `t` is allocated
unconditionally and the function ends with `return t, <-err`, so a non-nil
handle is returned even when `os.StartProcess` fails — in which case the
goroutine sent `p = nil` on the proc channel, leaving `t.proc` nil. -/
def Exec : StartOutcome → ExecRet
  | StartOutcome.ok _ => ⟨true, true, GoError.nil⟩
  | StartOutcome.fail e => ⟨true, false, GoError.kernel e⟩

/-- Embeds `Attach` (source lines 76-99): `err` has capacity 1, the
goroutine first sends the `PtraceAttach` result, and the function ends with
`return t, <-err`, which reads that first value; `os.FindProcess` always
succeeds on Unix, so `t.proc` is set.  A non-nil handle is returned even
when `PtraceAttach` failed. -/
def Attach (attachErr : GoError) : ExecRet :=
  ⟨true, true, attachErr⟩

/-- Serialized length: `binary.Write` of a `uint64` emits exactly 8 bytes. -/
theorem leBytes_length (n w : Nat) : (leBytes n w).length = n := by
  induction n generalizing w with
  | zero => rfl
  | succ n ih => simp [leBytes, ih]

/-- Little-endian deserialization inverts serialization up to the width. -/
theorem leRead_leBytes (n w : Nat) : leRead (leBytes n w) = w % 256 ^ n := by
  induction n generalizing w with
  | zero => simp [leBytes, leRead, Nat.mod_one]
  | succ n ih =>
      rw [leBytes, leRead, ih, pow_succ, mul_comm (256 ^ n) 256, Nat.mod_mul]

/-- Reading back the bytes just stored by `pokeData` returns them
unchanged. -/
theorem peekData_pokeData (m : Memory) (a : Nat) (buf : List Nat) :
    peekData (pokeData m a buf) a buf.length = buf := by
  apply List.ext_getElem
  · simp [peekData]
  · intro i h1 h2
    simp only [peekData, pokeData, List.getElem_map, List.getElem_range]
    have hi : i < buf.length := h2
    rw [if_pos ⟨Nat.le_add_right a i, by omega⟩]
    have : a + i - a = i := by omega
    rw [this, List.getD_eq_getElem buf 0 hi]

/-- C6: For every 64-bit value `W` and every address `A`, a successful
`WriteWord(A, W)` followed by a successful `ReadWord(A)` returns exactly
`W` with a nil error: the little-endian byte-buffer serialization used by
`poke` composed with the deserialization used by `peek` is the identity on
values below `2^64`. -/
theorem write_read_roundtrip (m : Memory) (a w : Nat) (h : w < 2 ^ 64) :
    readWordMem (writeWordMem m a w) a = (w, GoError.nil) := by
  have hlen : (leBytes 8 w).length = 8 := leBytes_length 8 w
  have hrt : peekData (pokeData m a (leBytes 8 w)) a 8 = leBytes 8 w := by
    conv_lhs => rw [← hlen]
    exact peekData_pokeData m a (leBytes 8 w)
  unfold readWordMem writeWordMem
  rw [hrt]
  unfold peek
  rw [if_neg (by simp)]
  rw [leRead_leBytes]
  have : (256 : Nat) ^ 8 = 2 ^ 64 := by norm_num
  rw [this, Nat.mod_eq_of_lt h]

/-- C6 witness: the round trip at the all-one-bits 64-bit pattern on the
zero memory at address 0. -/
theorem write_read_roundtrip_witness :
    readWordMem (writeWordMem (fun _ => 0) 0 18446744073709551615) 0 =
      (18446744073709551615, GoError.nil) :=
  write_read_roundtrip (fun _ => 0) 0 18446744073709551615 (by norm_num)

/-- C1 counterexample: with the command channel nil (the only state in which
the code skips the kernel call), `SendSignal` returns the nil error — not
the `TraceeExited` sentinel — so not every supported command returns
`TraceeExited` after the tracee-exited state is observable. -/
theorem sendSignal_nil_after_close :
    SendSignal false (GoError.kernel 3) = (GoError.nil, false) ∧
    GoError.nil ≠ GoError.traceeExited := by
  exact ⟨rfl, by decide⟩

/-- C1 amended: once `Close` has set the command channel to nil, every
command returns immediately without attempting the kernel call (second
component `false`), but the returned errors disagree: `SingleStep`,
`Continue` and `Detach` return `TraceeExited`; `SendSignal` returns nil;
`ReadWord`, `WriteWord` and `GetIPtr` return the generic
`errors.New("unreachable.")` value. -/
theorem cmds_after_close (k : GoError) (v rip : Nat) :
    SingleStep false k = (GoError.traceeExited, false) ∧
    Continue false k = (GoError.traceeExited, false) ∧
    Detach false k = (GoError.traceeExited, false) ∧
    SendSignal false k = (GoError.nil, false) ∧
    ReadWord false v k = ((0, GoError.unreachable), false) ∧
    WriteWord false k = (GoError.unreachable, false) ∧
    GetIPtr false rip k = ((0, GoError.unreachable), false) := by
  refine ⟨rfl, rfl, rfl, rfl, rfl, rfl, rfl⟩

/-- C9: after the command queue has been closed (`t.cmds = nil`), the public
commands disagree on their failure result: `SingleStep`, `Continue` and
`Detach` return the `TraceeExited` sentinel, `SendSignal` returns nil
(reporting success without delivering any signal), and `ReadWord` and
`WriteWord` return a distinct generic error (`"unreachable."`) instead of
`TraceeExited`. -/
theorem commands_disagree_after_close (k : GoError) (v : Nat) :
    (SingleStep false k).1 = GoError.traceeExited ∧
    (Continue false k).1 = GoError.traceeExited ∧
    (Detach false k).1 = GoError.traceeExited ∧
    (SendSignal false k).1 = GoError.nil ∧
    (ReadWord false v k).1.2 = GoError.unreachable ∧
    (WriteWord false k).1 = GoError.unreachable ∧
    GoError.unreachable ≠ GoError.traceeExited ∧
    GoError.nil ≠ GoError.traceeExited := by
  refine ⟨rfl, rfl, rfl, rfl, rfl, rfl, by decide, by decide⟩

/-- C2 counterexample: `Close` — a public method invoked by the caller, not
by the wait goroutine — closes the command channel, and it succeeds from the
initial state in which the wait loop has not observed termination
(`waitDone = false`).  So the command channel is neither closed only by the
Wait Loop nor only after the Wait Loop has observed termination. -/
theorem caller_close_before_termination :
    CloseT ⟨false, false, false, false⟩ =
      some ⟨true, true, true, false⟩ ∧
    (⟨false, false, false, false⟩ : Chans).waitDone = false ∧
    (⟨true, true, true, false⟩ : Chans).cmdsClosed = true := by
  decide

/-- C2 amended: the command channel is closed only by the caller-invoked
`Close` method — the wait goroutine never closes it, whatever sequence of
wait outcomes it observes; a successful `Close` closes the command channel
(and the error channel) exactly once, and any further `Close` call panics
instead of closing twice. -/
theorem close_discipline :
    (∀ (i : List WaitOutcome) (r : WaitResult),
        waitRun i = some r → r.cmdsClosed = false) ∧
    (∀ c c' : Chans, CloseT c = some c' →
        c'.cmdsClosed = true ∧ c'.cmdsNil = true ∧ c'.errClosed = true) ∧
    (∀ c c' : Chans, CloseT c = some c' → CloseT c' = Option.none) := by
  refine ⟨?_, ?_, ?_⟩
  · intro i
    induction i with
    | nil => intro r h; cases h
    | cons o rest ih =>
        intro r h
        cases o with
        | fails e => cases h; rfl
        | exited s => cases h; rfl
        | stopped s =>
            simp only [waitRun, Option.map_eq_some'] at h
            obtain ⟨r', hr', hmap⟩ := h
            have := ih r' hr'
            rw [← hmap]
            exact this
  · intro c c' h
    unfold CloseT at h
    by_cases h1 : c.errClosed
    · simp [h1] at h
    · by_cases h2 : c.cmdsClosed ∨ c.cmdsNil
      · simp [h1, h2] at h
      · simp [h1, h2] at h
        rw [← h]
        exact ⟨rfl, rfl, rfl⟩
  · intro c c' h
    unfold CloseT at h
    by_cases h1 : c.errClosed
    · simp [h1] at h
    · by_cases h2 : c.cmdsClosed ∨ c.cmdsNil
      · simp [h1, h2] at h
      · simp [h1, h2] at h
        rw [← h]
        unfold CloseT
        simp

/-- C2 witness: the wait goroutine leaves the command channel open on a
normal exit, and a `Close` repeated after the successful `Close` from the
initial state panics. -/
theorem close_discipline_witness :
    (⟨[0], true, Option.none, false, false⟩ : WaitResult).cmdsClosed = false ∧
    CloseT ⟨true, true, true, false⟩ = Option.none :=
  ⟨close_discipline.1 [WaitOutcome.exited 0] ⟨[0], true, Option.none, false, false⟩ rfl,
   close_discipline.2.2 ⟨false, false, false, false⟩ ⟨true, true, true, false⟩ rfl⟩

/-- C3 failing input evaluated: when the kernel transfer moves only 4 of the
8 bytes with a nil kernel error, `peek` returns `(0, nil)` — success with a
zero value — `poke` returns nil, and the `ReadWord` wrapper forwards the
`(0, nil)` success to the caller; the claim (and the spec) require a non-nil
error on a short transfer. -/
theorem short_transfer_is_silent_success :
    peek 4 GoError.nil [1, 2, 3, 4, 5, 6, 7, 8] = (0, GoError.nil) ∧
    poke 4 GoError.nil = GoError.nil ∧
    ReadWord true 0 GoError.nil = ((0, GoError.nil), true) := by
  refine ⟨rfl, rfl, rfl⟩

/-- C4 failing input evaluated: after a normal exit the wait goroutine sends
the exit event and closes `t.events`, but pushes nothing on `t.err` and
never closes `t.err`; `Close` not having been called, the receive `<-t.err`
inside `Error()` finds an empty, open channel and blocks forever
(`recvErr … = none`), instead of returning nil without blocking. -/
theorem error_blocks_after_normal_exit :
    waitRun [WaitOutcome.exited 0] =
      some ⟨[0], true, Option.none, false, false⟩ ∧
    recvErr Option.none false = Option.none := by
  refine ⟨rfl, rfl⟩

/-- C5 counterexample: when `os.StartProcess` fails, `Exec` still returns a
non-nil `*Tracee` handle alongside the error, and the handle's `proc` field
is nil — a half-initialized handle is leaked, contradicting the claim that
no Tracee handle is returned on failure. -/
theorem exec_failure_returns_handle :
    (Exec (StartOutcome.fail 2)).handleReturned = true ∧
    (Exec (StartOutcome.fail 2)).procSet = false ∧
    (Exec (StartOutcome.fail 2)).err = GoError.kernel 2 := by
  decide

/-- C5 amended: when `Exec` or `Attach` fails, the error is surfaced to the
caller, but a non-nil `Tracee` handle is returned alongside it — with a nil
`proc` field in the `Exec` case — so callers must test the error, not the
handle. -/
theorem exec_attach_surface_error (e pid : Nat) :
    Exec (StartOutcome.fail e) = ⟨true, false, GoError.kernel e⟩ ∧
    Attach (GoError.kernel e) = ⟨true, true, GoError.kernel e⟩ ∧
    Exec (StartOutcome.ok pid) = ⟨true, true, GoError.nil⟩ := by
  refine ⟨rfl, rfl, rfl⟩

/-- C7 counterexample: when the wait primitive fails, the wait goroutine
pushes the failure on `t.err` and closes `t.events`, but it does not close
(or otherwise signal) the command channel — `cmdsClosed = false` — so the
Command Executor is not signalled to stop accepting commands. -/
theorem wait_failure_does_not_stop_executor :
    waitRun [WaitOutcome.fails 7] =
      some ⟨[], true, some 7, false, false⟩ ∧
    (⟨[], true, some 7, false, false⟩ : WaitResult).cmdsClosed = false := by
  refine ⟨rfl, rfl⟩

/-- C7 amended: whenever the blocking wait primitive fails (after any number
of observed stops), the wait goroutine pushes that failure to the one-shot
error slot, closes the event stream and stops iterating — but it does not
signal the Command Executor, whose command channel stays open until the
caller invokes `Close`. -/
theorem wait_failure_teardown (pre : List Nat) (e : Nat)
    (rest : List WaitOutcome) :
    waitRun (pre.map WaitOutcome.stopped ++ WaitOutcome.fails e :: rest) =
      some ⟨pre, true, some e, false, false⟩ := by
  induction pre with
  | nil => rfl
  | cons p ps ih =>
      simp [List.map_cons, List.cons_append, waitRun, ih]

/-- C8: whenever the wait goroutine observes that the tracee has exited
(after any number of observed stops), it emits one final event carrying the
exit status, then closes the event stream and stops, so a caller draining
the event stream reliably detects termination. -/
theorem wait_exit_emits_final_event (pre : List Nat) (s : Nat)
    (rest : List WaitOutcome) :
    waitRun (pre.map WaitOutcome.stopped ++ WaitOutcome.exited s :: rest) =
      some ⟨pre ++ [s], true, Option.none, false, false⟩ := by
  induction pre with
  | nil => rfl
  | cons p ps ih =>
      simp [List.map_cons, List.cons_append, waitRun, ih]

/-- C10: `Close` is not idempotent: on any Tracee on which `Close` has
already completed once, a second `Close` panics — it reaches `close(t.err)`
with `t.err` already closed (modelled by the `none` result). -/
theorem close_not_idempotent (c c' : Chans) (h : CloseT c = some c') :
    CloseT c' = Option.none := by
  unfold CloseT at h
  by_cases h1 : c.errClosed
  · simp [h1] at h
  · by_cases h2 : c.cmdsClosed ∨ c.cmdsNil
    · simp [h1, h2] at h
    · simp [h1, h2] at h
      rw [← h]
      unfold CloseT
      simp

/-- C10 witness: a first `Close` from the initial channel state succeeds and
the second one panics. -/
theorem close_not_idempotent_witness :
    CloseT ⟨true, true, true, false⟩ = Option.none :=
  close_not_idempotent ⟨false, false, false, false⟩ ⟨true, true, true, false⟩ rfl

end Ptrace
